import Mathlib

/-!
Verification of the Cretonne IR type-encoding module
(src/cranelift/src/libcretonne/types.rs).

A type tag is a single byte: the low nibble is the base code
(void = 0, i8..i64 = 1..4, f32/f64 = 5/6, b1..b64 = 7..11) and the
high nibble is the log2 lane count.  Operations that abort in the
source (assert / debug assert / the invalid-tag branch of Display)
are modelled as returning none.
-/

/-- The type of an SSA value: a wrapped byte (Rust struct Type(u8)).
The val field is a natural number; every theorem below constrains it
to the byte range where that matters. -/
structure Ty where
  val : Nat
deriving DecidableEq

/-- No type (byte 0). -/
def VOID : Ty := ⟨0⟩

/-- Integer type with 8 bits. -/
def I8 : Ty := ⟨1⟩

/-- Integer type with 16 bits. -/
def I16 : Ty := ⟨2⟩

/-- Integer type with 32 bits. -/
def I32 : Ty := ⟨3⟩

/-- Integer type with 64 bits. -/
def I64 : Ty := ⟨4⟩

/-- IEEE single precision floating point type. -/
def F32 : Ty := ⟨5⟩

/-- IEEE double precision floating point type. -/
def F64 : Ty := ⟨6⟩

/-- Boolean type with one bit. -/
def B1 : Ty := ⟨7⟩

/-- Boolean type using 8 bits. -/
def B8 : Ty := ⟨8⟩

/-- Boolean type using 16 bits. -/
def B16 : Ty := ⟨9⟩

/-- Boolean type using 32 bits. -/
def B32 : Ty := ⟨10⟩

/-- Boolean type using 64 bits. -/
def B64 : Ty := ⟨11⟩

namespace Ty

/-- Rust Type::lane_type: mask off the high nibble. -/
def lane_type (t : Ty) : Ty := ⟨t.val &&& 0x0f⟩

/-- Rust Type::lane_bits: number of bits in a lane, keyed on the lane
type exactly as the source match arms are (B1 = 1; B8, I8 = 8; B16,
I16 = 16; B32, I32, F32 = 32; B64, I64, F64 = 64; anything else 0). -/
def lane_bits (t : Ty) : Nat :=
  match t.lane_type with
  | ⟨7⟩ => 1
  | ⟨8⟩ | ⟨1⟩ => 8
  | ⟨9⟩ | ⟨2⟩ => 16
  | ⟨10⟩ | ⟨3⟩ | ⟨5⟩ => 32
  | ⟨11⟩ | ⟨4⟩ | ⟨6⟩ => 64
  | _ => 0

/-- Rust Type::is_void: equality with the VOID constant. -/
def is_void (t : Ty) : Bool := t == VOID

/-- Rust Type::is_bool: matches exactly the five scalar boolean constants. -/
def is_bool (t : Ty) : Bool :=
  match t with
  | ⟨7⟩ | ⟨8⟩ | ⟨9⟩ | ⟨10⟩ | ⟨11⟩ => true
  | _ => false

/-- Rust Type::is_int: matches exactly the four scalar integer constants. -/
def is_int (t : Ty) : Bool :=
  match t with
  | ⟨1⟩ | ⟨2⟩ | ⟨3⟩ | ⟨4⟩ => true
  | _ => false

/-- Rust Type::is_float: matches exactly the two scalar float constants. -/
def is_float (t : Ty) : Bool :=
  match t with
  | ⟨5⟩ | ⟨6⟩ => true
  | _ => false

/-- Rust Type::log2_lane_count: the high nibble. -/
def log2_lane_count (t : Ty) : Nat := t.val >>> 4

/-- Rust Type::is_scalar: log2 lane count is zero. -/
def is_scalar (t : Ty) : Bool := t.log2_lane_count == 0

/-- Rust Type::lane_count: 1 shifted left by the log2 lane count. -/
def lane_count (t : Ty) : Nat := 1 <<< t.log2_lane_count

/-- Rust Type::bits: lane_bits times lane_count, as a u16 product
(reduced mod 2^16; no valid tag comes near the wrap). -/
def bits (t : Ty) : Nat := (t.lane_bits * t.lane_count) % 65536

end Ty

/-- Semantics of Rust u16::is_power_of_two for an argument already in
the u16 range: the value is 2^k for some k below 16. -/
def u16IsPowerOfTwo (n : Nat) : Bool :=
  (List.range 16).any fun k => n == 2 ^ k

/-- Count trailing zero bits, with fuel (16 steps cover the u16 range). -/
def tzAux : Nat → Nat → Nat
  | _, 0 => 0
  | n, fuel + 1 => if n % 2 == 1 then 0 else 1 + tzAux (n / 2) fuel

/-- Semantics of Rust u16::trailing_zeros for an argument already in
the u16 range: 16 for zero, otherwise the number of trailing zero bits. -/
def u16TrailingZeros (n : Nat) : Nat :=
  if n == 0 then 16 else tzAux n 16

namespace Ty

/-- Rust Type::by (named with a trailing tick because by is a Lean
keyword).  The two debug assertions (nonzero lane width, power-of-two
lane multiplier) and the assertion new_type < 0x90 become none; on
success the new byte is the receiver plus the log2 lane multiplier
shifted into the high nibble, truncated to a byte exactly as the
source writes new_type as u8. -/
def by' (t : Ty) (n : Nat) : Option Ty :=
  if t.lane_bits = 0 then none
  else if ¬ u16IsPowerOfTwo n then none
  else
    let log2_lanes := u16TrailingZeros n
    let new_type := t.val + (log2_lanes <<< 4)
    if 0x90 ≤ new_type then none else some ⟨new_type % 256⟩

/-- Rust Type::half_vector: asserts the receiver is not scalar, then
subtracts 0x10 from the byte. -/
def half_vector (t : Ty) : Option Ty :=
  if t.is_scalar then none else some ⟨t.val - 0x10⟩

/-- Rust Display for Type, with fuel making the recursion on the lane
type structural; the recursion depth is at most one because the lane
type is always scalar, so fuel 2 never runs out on a byte-range tag.
The final panic branch (invalid scalar tag) is none. -/
def fmtAux : Nat → Ty → Option String
  | 0, _ => none
  | fuel + 1, t =>
    if t.is_void then some "void"
    else if t.is_bool then some ("b" ++ toString t.lane_bits)
    else if t.is_int then some ("i" ++ toString t.lane_bits)
    else if t.is_float then some ("f" ++ toString t.lane_bits)
    else if ¬ t.is_scalar then
      (fmtAux fuel t.lane_type).map fun s => s ++ "x" ++ toString t.lane_count
    else none

/-- Rendering entry point: Display::fmt, none on the panic branch. -/
def fmt (t : Ty) : Option String := fmtAux 2 t

end Ty

/-- The eleven predefined scalar constants with nonzero lane width
(every predefined constant except VOID). -/
def scalarTys : List Ty :=
  [I8, I16, I32, I64, F32, F64, B1, B8, B16, B32, B64]

/-- Every structurally valid tag byte: VOID, or a base code in 1..11
with a log2 lane count in 0..8 (all such bytes are below 0x90). -/
def validTys : List Ty :=
  (List.range 0x90).filterMap fun v =>
    if v = 0 ∨ (1 ≤ v &&& 0x0f ∧ v &&& 0x0f ≤ 11) then some ⟨v⟩ else none

example : F64.by' 256 = some ⟨134⟩ := by decide
example : (F64.by' 256).map Ty.bits = some 16384 := by decide
example : ((B1.by' 2).bind Ty.half_vector).bind Ty.fmt = some "b1" := by decide
example : Ty.fmt ⟨16⟩ = some "voidx2" := by decide
example : Ty.fmt ⟨12⟩ = none := by decide
example : validTys.length = 100 := by decide

/-- C1: for every scalar constant T with nonzero lane width and every
power of two n = 2^k with k between 0 and 8 (so 1 <= n <= 256),
T.by(n) succeeds, its lane type is T and its lane count is n; with
n = 1 the result is T itself. -/
theorem by_roundtrip (T : Ty) (hT : T ∈ scalarTys) (k : Nat) (hk : k ≤ 8) :
    (T.by' (2 ^ k)).map Ty.lane_type = some T ∧
    (T.by' (2 ^ k)).map Ty.lane_count = some (2 ^ k) ∧
    T.by' 1 = some T := by
  revert hk; revert k; revert hT; revert T
  decide

/-- Witness for by_roundtrip at T = I32 and k = 3. -/
theorem by_roundtrip_witness :
    (I32.by' (2 ^ 3)).map Ty.lane_type = some I32 ∧
    (I32.by' (2 ^ 3)).map Ty.lane_count = some (2 ^ 3) ∧
    I32.by' 1 = some I32 :=
  by_roundtrip I32 (by decide) 3 (by decide)

/-- C2: by is compositional: for every valid tag T with nonzero lane
width and powers of two 2^a and 2^b whose product times the current
lane count stays within 256 lanes, T.by(2^a).by(2^b) equals
T.by(2^a * 2^b). -/
theorem by_composition (T : Ty) (hT : T ∈ validTys) (a : Nat) (ha : a ≤ 8)
    (b : Nat) (hb : b ≤ 8) (hw : T.lane_bits ≠ 0)
    (hab : T.log2_lane_count + a + b ≤ 8) :
    (T.by' (2 ^ a)).bind (fun v => v.by' (2 ^ b)) = T.by' (2 ^ a * 2 ^ b) := by
  revert hab; revert hw; revert hb; revert b; revert ha; revert a
  revert hT; revert T
  decide

/-- Witness for by_composition at T = B32, a = 2, b = 1. -/
theorem by_composition_witness :
    (B32.by' (2 ^ 2)).bind (fun v => v.by' (2 ^ 1)) = B32.by' (2 ^ 2 * 2 ^ 1) :=
  by_composition B32 (by decide) 2 (by decide) 1 (by decide) (by decide) (by decide)

/-- C3: half_vector is the inverse step of by: for every scalar
constant T with nonzero lane width and every k with 1 <= k <= 8,
T.by(2^k).half_vector() equals T.by(2^(k-1)), in particular
T.by(2).half_vector() equals T; and on every valid non-scalar tag t,
half_vector returns the byte minus 0x10: same base code (lane type)
and log2 lane count one less. -/
theorem half_vector_inverse (T : Ty) (hT : T ∈ scalarTys)
    (k : Nat) (hk : k ≤ 8) (h1 : 1 ≤ k)
    (t : Ty) (ht : t ∈ validTys) (hs : t.is_scalar = false) :
    (T.by' (2 ^ k)).bind Ty.half_vector = T.by' (2 ^ (k - 1)) ∧
    (T.by' 2).bind Ty.half_vector = some T ∧
    t.half_vector = some ⟨t.val - 0x10⟩ ∧
    t.half_vector.map Ty.lane_type = some t.lane_type ∧
    t.half_vector.map Ty.log2_lane_count = some (t.log2_lane_count - 1) := by
  revert hs; revert ht; revert t
  revert h1; revert hk; revert k; revert hT; revert T
  decide

/-- Witness for half_vector_inverse at T = F64, k = 8, t = i32x2 (byte 0x13). -/
theorem half_vector_inverse_witness :
    (F64.by' (2 ^ 8)).bind Ty.half_vector = F64.by' (2 ^ (8 - 1)) ∧
    (F64.by' 2).bind Ty.half_vector = some F64 ∧
    Ty.half_vector ⟨0x13⟩ = some ⟨0x13 - 0x10⟩ ∧
    (Ty.half_vector ⟨0x13⟩).map Ty.lane_type = some (Ty.lane_type ⟨0x13⟩) ∧
    (Ty.half_vector ⟨0x13⟩).map Ty.log2_lane_count
      = some (Ty.log2_lane_count ⟨0x13⟩ - 1) :=
  half_vector_inverse F64 (by decide) 8 (by decide) (by decide)
    ⟨0x13⟩ (by decide) (by decide)

/-- C4: the lane_bits table (0 for void, 1 for b1, 8 for b8 and i8,
16 for b16 and i16, 32 for b32, i32 and f32, 64 for b64, i64 and f64),
lane_bits is keyed on the lane type so every vector agrees with its
lane type, and bits equals lane_bits times lane_count on every valid
tag; in particular void.bits() = 0 and f64.by(256).bits() = 16384. -/
theorem lane_bits_bits_spec (t : Ty) (ht : t ∈ validTys) :
    t.lane_bits = t.lane_type.lane_bits ∧
    t.bits = t.lane_bits * t.lane_count ∧
    VOID.lane_bits = 0 ∧ B1.lane_bits = 1 ∧
    B8.lane_bits = 8 ∧ I8.lane_bits = 8 ∧
    B16.lane_bits = 16 ∧ I16.lane_bits = 16 ∧
    B32.lane_bits = 32 ∧ I32.lane_bits = 32 ∧ F32.lane_bits = 32 ∧
    B64.lane_bits = 64 ∧ I64.lane_bits = 64 ∧ F64.lane_bits = 64 ∧
    VOID.bits = 0 ∧ (F64.by' 256).map Ty.bits = some 16384 := by
  revert ht; revert t
  decide

/-- Witness for lane_bits_bits_spec at t = f64x256 (byte 0x86). -/
theorem lane_bits_bits_spec_witness :
    Ty.lane_bits ⟨0x86⟩ = (Ty.lane_type ⟨0x86⟩).lane_bits ∧
    Ty.bits ⟨0x86⟩ = Ty.lane_bits ⟨0x86⟩ * Ty.lane_count ⟨0x86⟩ ∧
    VOID.lane_bits = 0 ∧ B1.lane_bits = 1 ∧
    B8.lane_bits = 8 ∧ I8.lane_bits = 8 ∧
    B16.lane_bits = 16 ∧ I16.lane_bits = 16 ∧
    B32.lane_bits = 32 ∧ I32.lane_bits = 32 ∧ F32.lane_bits = 32 ∧
    B64.lane_bits = 64 ∧ I64.lane_bits = 64 ∧ F64.lane_bits = 64 ∧
    VOID.bits = 0 ∧ (F64.by' 256).map Ty.bits = some 16384 :=
  lane_bits_bits_spec ⟨0x86⟩ (by decide)

/-- C5: canonical rendering follows the grammar on every valid tag:
void renders "void"; a scalar boolean, integer or float renders the
letter b, i or f followed by its lane_bits; a vector renders its lane
type followed by the letter x and its lane count; and the concrete
cases b1x8, b8 (by 1 accepted), b32x8 via by(4).by(2), f64x128 via
half_vector, and b1 via by(2).half_vector all render as stated. -/
theorem fmt_grammar (t : Ty) (ht : t ∈ validTys) :
    (t.is_bool = true → t.fmt = some ("b" ++ toString t.lane_bits)) ∧
    (t.is_int = true → t.fmt = some ("i" ++ toString t.lane_bits)) ∧
    (t.is_float = true → t.fmt = some ("f" ++ toString t.lane_bits)) ∧
    (t.is_scalar = false →
      t.fmt = (t.lane_type.fmt).map fun s => s ++ "x" ++ toString t.lane_count) ∧
    VOID.fmt = some "void" ∧ B1.fmt = some "b1" ∧
    I32.fmt = some "i32" ∧ F64.fmt = some "f64" ∧
    (B1.by' 8).bind Ty.fmt = some "b1x8" ∧
    (B8.by' 1).bind Ty.fmt = some "b8" ∧
    ((B32.by' 4).bind (fun v => v.by' 2)).bind Ty.fmt = some "b32x8" ∧
    ((F64.by' 256).bind Ty.half_vector).bind Ty.fmt = some "f64x128" ∧
    ((B1.by' 2).bind Ty.half_vector).bind Ty.fmt = some "b1" := by
  revert ht; revert t
  decide

/-- Witness for fmt_grammar at t = b1x8 (byte 0x37). -/
theorem fmt_grammar_witness :
    (Ty.is_bool ⟨0x37⟩ = true →
      Ty.fmt ⟨0x37⟩ = some ("b" ++ toString (Ty.lane_bits ⟨0x37⟩))) ∧
    (Ty.is_int ⟨0x37⟩ = true →
      Ty.fmt ⟨0x37⟩ = some ("i" ++ toString (Ty.lane_bits ⟨0x37⟩))) ∧
    (Ty.is_float ⟨0x37⟩ = true →
      Ty.fmt ⟨0x37⟩ = some ("f" ++ toString (Ty.lane_bits ⟨0x37⟩))) ∧
    (Ty.is_scalar ⟨0x37⟩ = false →
      Ty.fmt ⟨0x37⟩ = ((Ty.lane_type ⟨0x37⟩).fmt).map
        fun s => s ++ "x" ++ toString (Ty.lane_count ⟨0x37⟩)) ∧
    VOID.fmt = some "void" ∧ B1.fmt = some "b1" ∧
    I32.fmt = some "i32" ∧ F64.fmt = some "f64" ∧
    (B1.by' 8).bind Ty.fmt = some "b1x8" ∧
    (B8.by' 1).bind Ty.fmt = some "b8" ∧
    ((B32.by' 4).bind (fun v => v.by' 2)).bind Ty.fmt = some "b32x8" ∧
    ((F64.by' 256).bind Ty.half_vector).bind Ty.fmt = some "f64x128" ∧
    ((B1.by' 2).bind Ty.half_vector).bind Ty.fmt = some "b1" :=
  fmt_grammar ⟨0x37⟩ (by decide)

/-- C6: on every valid tag and every u16 argument n, by(n) fails
(returns none, where the source asserts) exactly when the lane width
is zero, n is not a power of two, or the resulting log2 lane count
(the current one plus the trailing zeros of n) would exceed 8; on all
other inputs it succeeds with some tag. -/
theorem by_failure_iff (t : Ty) (ht : t ∈ validTys) (n : Nat) (hn : n < 65536) :
    t.by' n = none ↔
      (t.lane_bits = 0 ∨ u16IsPowerOfTwo n = false ∨
        8 < t.log2_lane_count + u16TrailingZeros n) := by
  by_cases hp : u16IsPowerOfTwo n = true
  · obtain ⟨k, hk, rfl⟩ : ∃ k, k < 16 ∧ n = 2 ^ k := by
      simpa [u16IsPowerOfTwo, List.any_eq_true, List.mem_range] using hp
    clear hn hp
    revert ht; revert t; revert hk; revert k
    decide
  · have hp' : u16IsPowerOfTwo n = false := by simpa using hp
    constructor
    · intro _
      exact Or.inr (Or.inl hp')
    · intro _
      unfold Ty.by'
      by_cases h0 : t.lane_bits = 0 <;> simp [h0, hp']

/-- Witness for by_failure_iff at t = I32, n = 4 (a success case). -/
theorem by_failure_iff_witness :
    I32.by' 4 = none ↔
      (I32.lane_bits = 0 ∨ u16IsPowerOfTwo 4 = false ∨
        8 < I32.log2_lane_count + u16TrailingZeros 4) :=
  by_failure_iff I32 (by decide) 4 (by decide)

/-- C7: half_vector on any scalar tag (log2 lane count zero, which
covers every predefined scalar constant) fails and never returns a
value. -/
theorem half_vector_scalar_fails (t : Ty) (h : t.is_scalar = true) :
    t.half_vector = none := by
  simp [Ty.half_vector, h]

/-- Witness for half_vector_scalar_fails at t = I32. -/
theorem half_vector_scalar_fails_witness : I32.half_vector = none :=
  half_vector_scalar_fails I32 (by decide)

/-- C8 counterexample: the byte 0x10 has the void base code combined
with a nonzero lane-count nibble — a structurally invalid pattern by
the invariant that void is never vectorized — yet rendering it does
not fail: it silently produces the string voidx2. -/
theorem fmt_invalid_counterexample :
    Ty.lane_type ⟨0x10⟩ = VOID ∧ Ty.log2_lane_count ⟨0x10⟩ = 1 ∧
    Ty.fmt ⟨0x10⟩ = some "voidx2" ∧ Ty.fmt ⟨0x10⟩ ≠ none := by
  decide

set_option maxRecDepth 4096 in
/-- C8 amended: on any byte, rendering fails exactly for the low
nibbles outside the eleven base codes: when the low nibble is 12 or
more the rendering is none (directly for a scalar, through the
recursive lane-type rendering for a vector); but a void base code
combined with a nonzero lane-count nibble does not fail — it renders
as the rendering of void followed by the letter x and the lane count. -/
theorem fmt_invalid_amended (v : Nat) (hv : v < 256) :
    (12 ≤ v &&& 0x0f → Ty.fmt ⟨v⟩ = none) ∧
    (v &&& 0x0f = 0 → 0 < v >>> 4 →
      Ty.fmt ⟨v⟩ = (VOID.fmt).map
        fun s => s ++ "x" ++ toString (Ty.lane_count ⟨v⟩)) := by
  revert hv; revert v
  decide

/-- Witness for fmt_invalid_amended at v = 0x1C (invalid base in a vector). -/
theorem fmt_invalid_amended_witness :
    (12 ≤ 0x1C &&& 0x0f → Ty.fmt ⟨0x1C⟩ = none) ∧
    (0x1C &&& 0x0f = 0 → 0 < 0x1C >>> 4 →
      Ty.fmt ⟨0x1C⟩ = (VOID.fmt).map
        fun s => s ++ "x" ++ toString (Ty.lane_count ⟨0x1C⟩)) :=
  fmt_invalid_amended 0x1C (by decide)

set_option maxRecDepth 4096 in
/-- C9: on every byte, is_bool holds exactly on the five scalar
boolean constants, is_int exactly on the four scalar integer
constants, is_float exactly on the two scalar float constants, and
every tag with a nonzero lane-count nibble reports false for all
three predicates. -/
theorem predicates_exact (v : Nat) (hv : v < 256) :
    (Ty.is_bool ⟨v⟩ = true ↔ (⟨v⟩ : Ty) ∈ [B1, B8, B16, B32, B64]) ∧
    (Ty.is_int ⟨v⟩ = true ↔ (⟨v⟩ : Ty) ∈ [I8, I16, I32, I64]) ∧
    (Ty.is_float ⟨v⟩ = true ↔ (⟨v⟩ : Ty) ∈ [F32, F64]) ∧
    (0 < v >>> 4 →
      Ty.is_bool ⟨v⟩ = false ∧ Ty.is_int ⟨v⟩ = false ∧
      Ty.is_float ⟨v⟩ = false) := by
  revert hv; revert v
  decide

/-- Witness for predicates_exact at the byte of B1. -/
theorem predicates_exact_witness :
    (Ty.is_bool ⟨7⟩ = true ↔ (⟨7⟩ : Ty) ∈ [B1, B8, B16, B32, B64]) ∧
    (Ty.is_int ⟨7⟩ = true ↔ (⟨7⟩ : Ty) ∈ [I8, I16, I32, I64]) ∧
    (Ty.is_float ⟨7⟩ = true ↔ (⟨7⟩ : Ty) ∈ [F32, F64]) ∧
    (0 < 7 >>> 4 →
      Ty.is_bool ⟨7⟩ = false ∧ Ty.is_int ⟨7⟩ = false ∧
      Ty.is_float ⟨7⟩ = false) :=
  predicates_exact 7 (by decide)

set_option maxRecDepth 4096 in
/-- C10: on every byte the four classification predicates is_void,
is_bool, is_int, is_float are mutually exclusive (at most one is
true), all four are false whenever the lane-count nibble is nonzero,
and on every valid tag exactly one of is_void, is_bool, is_int,
is_float and not-is_scalar holds, partitioning valid tags into void,
scalar bool, scalar int, scalar float and vectors. -/
theorem predicates_partition (v : Nat) (hv : v < 256) :
    ([Ty.is_void ⟨v⟩, Ty.is_bool ⟨v⟩, Ty.is_int ⟨v⟩,
        Ty.is_float ⟨v⟩].count true ≤ 1) ∧
    (0 < v >>> 4 →
      [Ty.is_void ⟨v⟩, Ty.is_bool ⟨v⟩, Ty.is_int ⟨v⟩,
        Ty.is_float ⟨v⟩].count true = 0) ∧
    ((⟨v⟩ : Ty) ∈ validTys →
      [Ty.is_void ⟨v⟩, Ty.is_bool ⟨v⟩, Ty.is_int ⟨v⟩, Ty.is_float ⟨v⟩,
        !Ty.is_scalar ⟨v⟩].count true = 1) := by
  revert hv; revert v
  decide

/-- Witness for predicates_partition at the byte of I32. -/
theorem predicates_partition_witness :
    ([Ty.is_void ⟨3⟩, Ty.is_bool ⟨3⟩, Ty.is_int ⟨3⟩,
        Ty.is_float ⟨3⟩].count true ≤ 1) ∧
    (0 < 3 >>> 4 →
      [Ty.is_void ⟨3⟩, Ty.is_bool ⟨3⟩, Ty.is_int ⟨3⟩,
        Ty.is_float ⟨3⟩].count true = 0) ∧
    ((⟨3⟩ : Ty) ∈ validTys →
      [Ty.is_void ⟨3⟩, Ty.is_bool ⟨3⟩, Ty.is_int ⟨3⟩, Ty.is_float ⟨3⟩,
        !Ty.is_scalar ⟨3⟩].count true = 1) :=
  predicates_partition 3 (by decide)
